import Mathlib

/-!
# Verification of the QtLoader lifecycle machinery (src/gui_lifecycle/qtloader.js)

This file gives a shallow embedding of the lifecycle state machine, restart
controller, display dispatcher and capability probe implemented by the
`QtLoader` function of `qtloader.js`, and settles the frozen claims about it.

Modelling conventions:
* JavaScript strings naming lifecycle statuses become the inductive `St`;
  `publicAPI.status` starts out as `undefined`, so status-valued variables
  are `Option St` (`none` = `undefined`).
* The `window.setTimeout(..., 0)` calls made by `setStatus` are modelled as a
  counter `pending` of queued `handleStatusChange` handlers; a "drain" runs
  the queued handlers one after the other (`drainN`, with explicit fuel).
* DOM side effects and presentation-callback invocations are recorded in an
  event trace (`Ev`); a JavaScript `TypeError` thrown by calling an
  `undefined` callback is an `Except.error`.
* Presentation callbacks themselves are opaque: the model records that they
  were invoked (and with which `crashed` flag, for `showExit`), and treats
  their return value as a surface that the managed-mode loop appends.
* `console.log` calls are ignored: they affect no claimed behaviour.
-/

/-- Lifecycle status strings: "Created", "Loading", "Running", "Exited",
"Error" (qtloader.js passes these to `setStatus`). -/
inductive St
  | Created
  | Loading
  | Running
  | Exited
  | Error
deriving DecidableEq, Repr

/-- `config.restartMode` (qtloader.js line 185, doc lines 85-86). -/
inductive RestartMode
  | DoNotRestart
  | RestartOnExit
  | RestartOnCrash
deriving DecidableEq, Repr

/-- `config.restartType` (qtloader.js doc line 87). -/
inductive RestartType
  | RestartModule
  | ReloadPage
deriving DecidableEq, Repr

/-! ## Capability probe (qtloader.js lines 115-134)

The host environment is modelled by the observable answers the browser gives
to the probes: whether a global `WebAssembly` object exists, whether
`window.WebGLRenderingContext` is truthy, and what
`canvas.getContext("webgl")` does (`none` = it throws, `some b` = it returns
a context (`true`) or `null` (`false`)). -/

structure HostEnv where
  hasWebAssembly : Bool
  hasWebGLRenderingContext : Bool
  canvasGetContextWebgl : Option Bool
deriving DecidableEq, Repr

/-- The JavaScript values compared on qtloader.js line 116: the result of a
`typeof` expression (always a string) against the value `undefined`. -/
inductive JsVal
  | undef
  | str (s : String)
deriving DecidableEq, Repr

/-- `typeof WebAssembly`: the string "object" when the global exists, the
string "undefined" when it does not. -/
def jsTypeofWebAssembly (env : HostEnv) : String :=
  if env.hasWebAssembly then "object" else "undefined"

/-- Line 116: `return typeof WebAssembly !== undefined`. Note that the
left-hand side is a *string* and the right-hand side is the *value*
`undefined`; `!==` between them is a strict comparison of a string with
`undefined`. -/
def webAssemblySupported (env : HostEnv) : Bool :=
  JsVal.str (jsTypeofWebAssembly env) ≠ JsVal.undef

/-- Lines 119-128: inside `try`, returns
`!!(window.WebGLRenderingContext && canvas.getContext("webgl"))`; any throw
is caught and yields `false`. -/
def webGLSupported (env : HostEnv) : Bool :=
  match env.canvasGetContextWebgl with
  | none => false
  | some ctx => env.hasWebGLRenderingContext && ctx

/-- Lines 130-134: `return webAssemblySupported() && webGLSupported()`. -/
def canLoadQt (env : HostEnv) : Bool :=
  webAssemblySupported env && webGLSupported env

/-! ## Display dispatcher (qtloader.js lines 318-385) -/

/-- A thrown JavaScript error; the only kind the model produces is the
`TypeError` raised by invoking an `undefined` callback (or reading
`.firstChild` of an `undefined` element). -/
inductive JsErr
  | typeError
deriving DecidableEq, Repr

/-- Observable dispatcher events: presentation-callback invocations and the
DOM/module mutations the dispatcher itself performs.  `domAppend i` is
`container.appendChild(...)` on container number `i`; `setModuleCanvas` is
the `self.module.canvas = firstCanvas` assignment (line 357). -/
inductive Ev
  | callShowError
  | callShowLoader
  | callShowCanvas
  | callShowExit (crashed : Bool)
  | domAppend (i : Nat)
  | setModuleCanvas
deriving DecidableEq, Repr

/-- The dispatcher-relevant part of `config` after construction:
`containerElements` is `some n` (managed mode, `n` containers) or `none`
(external mode); the four flags record whether the respective presentation
callback is defined. -/
structure DispCfg where
  containerElements : Option Nat
  showError : Bool
  showLoader : Bool
  showCanvas : Bool
  showExit : Bool
deriving DecidableEq, Repr

/-- Lines 141-183: when `containerElements` is present, each missing
presentation callback is replaced with a built-in default
(`config.showX = config.showX || function ...`); without containers nothing
is synthesized. -/
def normalizeDispCfg (c : DispCfg) : DispCfg :=
  match c.containerElements with
  | none => c
  | some _ =>
      { c with showError := true, showLoader := true,
               showCanvas := true, showExit := true }

/-- The per-container loop `for (container of config.containerElements)`
calling a presentation callback and appending its result.  If the callback is
`undefined` the first iteration throws a `TypeError` (so a loop over zero
containers succeeds vacuously); otherwise every container gets the events
`mk i`. -/
def managedRender (n : Nat) (present : Bool) (mk : Nat → List Ev) :
    Except JsErr (List Ev) :=
  if n ≠ 0 ∧ ¬ present then .error .typeError
  else .ok ((List.range n).map mk).flatten

/-- Lines 318-329 (`setErrorContent`): external mode calls `showError` only
when defined; managed mode calls it for each container and appends the
result. -/
def setErrorContent (cfg : DispCfg) : Except JsErr (List Ev) :=
  match cfg.containerElements with
  | none => if cfg.showError then .ok [.callShowError] else .ok []
  | some n => managedRender n cfg.showError (fun i => [.callShowError, .domAppend i])

/-- Lines 331-342 (`setLoaderContent`): same shape as `setErrorContent`. -/
def setLoaderContent (cfg : DispCfg) : Except JsErr (List Ev) :=
  match cfg.containerElements with
  | none => if cfg.showLoader then .ok [.callShowLoader] else .ok []
  | some n => managedRender n cfg.showLoader (fun i => [.callShowLoader, .domAppend i])

/-- Lines 344-359 (`setCanvasContent`).  External mode evaluates
`firstCanvas = config.showCanvas()` *unconditionally* — with no `showCanvas`
supplied this throws a `TypeError`.  Managed mode renders a canvas into every
container and then reads `config.containerElements[0].firstChild` (a
`TypeError` when there are zero containers).  Finally
`self.module.canvas = firstCanvas` runs when the module has no canvas yet
(`canvasSet` is whether it already has one). -/
def setCanvasContent (cfg : DispCfg) (canvasSet : Bool) :
    Except JsErr (List Ev) :=
  match cfg.containerElements with
  | none =>
      if cfg.showCanvas then
        .ok ([.callShowCanvas] ++ if canvasSet then [] else [.setModuleCanvas])
      else .error .typeError
  | some n =>
      match managedRender n cfg.showCanvas (fun i => [.callShowCanvas, .domAppend i]) with
      | .error e => .error e
      | .ok evs =>
          if n = 0 then .error .typeError
          else .ok (evs ++ if canvasSet then [] else [.setModuleCanvas])

/-- Lines 361-385 (`setExitContent`).  Returns without effect unless the
public status is "Exited".  External mode then calls `showExit` (when
defined) passing `crashed` and `exitCode` — with **no** check of `crashed`.
Managed mode checks `if (!publicAPI.crashed) return;` first and only then
loops over the containers, appending each non-undefined result (the loop is
modelled with the callback returning a surface, as the built-in default does
when `crashed` is true). -/
def setExitContent (cfg : DispCfg) (status : Option St) (crashed : Bool) :
    Except JsErr (List Ev) :=
  if status ≠ some St.Exited then .ok []
  else
    match cfg.containerElements with
    | none => if cfg.showExit then .ok [.callShowExit crashed] else .ok []
    | some n =>
        if ¬ crashed then .ok []
        else managedRender n cfg.showExit (fun i => [.callShowExit crashed, .domAppend i])

/-! ## Lifecycle state machine (qtloader.js lines 197-433)

`MState` collects the mutable variables of one `QtLoader` instance —
the `publicAPI` record fields (lines 197-206), `restartCount` (line 208),
`committedStatus` (line 387) — together with the observation traces the
claims are about: dispatcher invocations (`commits`, one entry per pass of
the `committedStatus` guard in `handleStatusChange`), rendered events
(`renderEvents`), `statusChanged` notifications, uncaught exceptions,
`createModule` invocations (`loadCalls`) and `location.reload()` requests
(`reloaded`).  `pending` counts the `handleStatusChange` closures queued by
`window.setTimeout(..., 0)` and not yet run. -/

structure MCfg where
  env : HostEnv
  disp : DispCfg
  restartMode : RestartMode
  restartType : RestartType
  restartLimit : Nat
  hasStatusChanged : Bool
deriving DecidableEq, Repr

structure MState where
  status : Option St
  committedStatus : Option St
  crashed : Bool
  exitCodeV : Option Int
  exitText : Option String
  errorMsg : Option String
  restartCount : Nat
  moduleCanvasSet : Bool
  pending : Nat
  reloaded : Bool
  commits : List (Option St)
  renderEvents : List Ev
  notifications : List (Option St)
  exnLog : List JsErr
  loadCalls : Nat
deriving Repr

/-- The state right after the assignments of lines 197-208: every public
field `undefined` except `crashed = false`, `committedStatus` `undefined`,
`restartCount = 0`, nothing queued, nothing observed yet. -/
def initState : MState :=
  { status := none, committedStatus := none, crashed := false,
    exitCodeV := none, exitText := none, errorMsg := none,
    restartCount := 0, moduleCanvasSet := false, pending := 0,
    reloaded := false, commits := [], renderEvents := [],
    notifications := [], exnLog := [], loadCalls := 0 }

/-- Lines 420-431 (`setStatus`): returns unchanged when the new status equals
`publicAPI.status`; otherwise stores the new status synchronously and queues
one deferred `handleStatusChange` via `window.setTimeout(..., 0)`. -/
def setStatus (st : St) (s : MState) : MState :=
  if s.status = some st then s
  else { s with status := some st, pending := s.pending + 1 }

/-- Lines 405-406: the condition under which the "Exited" branch of
`handleStatusChange` invokes `config.restart` —
`restartMode == "RestartOnExit" || restartMode == "RestartOnCrash" && crashed`
(in JavaScript `&&` binds tighter than `||`). -/
def restartTriggered (mode : RestartMode) (crashed : Bool) : Bool :=
  decide (mode = RestartMode.RestartOnExit) ||
    (decide (mode = RestartMode.RestartOnCrash) && crashed)

/-- The user-facing halt message assigned on line 302. -/
def haltMessage : String :=
  "Error: This application has crashed too many times and has been disabled. Reload the page to try again."

/-- Lines 210-316 (`loadEmscriptenModule`).  The wasm/WebGL capability checks
run first and bail out to an "Error" status; then the module object is built
(its callbacks are the standalone transformers below), the exit-related
public fields are reset (lines 309-311), the status is set to "Loading"
(line 312) and `createModule(module)` is invoked (line 315) — an external,
asynchronous collaborator, recorded as one more `loadCalls`. -/
def loadEmscriptenModule (cfg : MCfg) (s : MState) : MState :=
  if ¬ webAssemblySupported cfg.env then
    setStatus St.Error { s with errorMsg := some "Error: WebAssembly is not supported" }
  else if ¬ webGLSupported cfg.env then
    setStatus St.Error { s with errorMsg := some "Error: WebGL is not supported" }
  else
    let s := { s with exitCodeV := none, exitText := none, crashed := false }
    let s := setStatus St.Loading s
    { s with loadCalls := s.loadCalls + 1 }

/-- Lines 291-308 (`config.restart`).  With `restartType == "ReloadPage"` it
requests `location.reload()` — and, as in the source, *continues executing*:
it increments `restartCount`, and either halts with the permanent error
message (incremented count exceeds `restartLimit`) or invokes
`loadEmscriptenModule` again. -/
def restart (cfg : MCfg) (s : MState) : MState :=
  let s := if cfg.restartType = RestartType.ReloadPage then { s with reloaded := true } else s
  let s := { s with restartCount := s.restartCount + 1 }
  if cfg.restartLimit < s.restartCount then
    setStatus St.Error { s with errorMsg := some haltMessage }
  else
    loadEmscriptenModule cfg s

/-- The status dispatch of `handleStatusChange` (lines 396-412), run after
the guard has committed the status: renders according to the current public
status, except that a committed "Exited" first consults the restart rule and,
when it fires, clears `committedStatus` and runs `config.restart` instead of
rendering.  A raised `TypeError` propagates (`.error`), aborting the rest of
the handler. -/
def renderStep (cfg : MCfg) (s : MState) : Except JsErr MState :=
  match s.status with
  | some St.Error =>
      (setErrorContent cfg.disp).map
        (fun evs => { s with renderEvents := s.renderEvents ++ evs })
  | some St.Loading =>
      (setLoaderContent cfg.disp).map
        (fun evs => { s with renderEvents := s.renderEvents ++ evs })
  | some St.Running =>
      (setCanvasContent cfg.disp s.moduleCanvasSet).map
        (fun evs => { s with renderEvents := s.renderEvents ++ evs,
                             moduleCanvasSet := true })
  | some St.Exited =>
      if restartTriggered cfg.restartMode s.crashed then
        .ok (restart cfg { s with committedStatus := none })
      else
        (setExitContent cfg.disp s.status s.crashed).map
          (fun evs => { s with renderEvents := s.renderEvents ++ evs })
  | _ => .ok s

/-- Lines 388-418 (`handleStatusChange`): a no-op when `committedStatus`
already equals the public status; otherwise it commits the status (one
dispatcher invocation, recorded in `commits`), runs the status dispatch, and
finally notifies `config.statusChanged` with the *current* public status
(which the restart path may have changed in the meantime).  An uncaught
`TypeError` from the dispatch skips the notification. -/
def handleStatusChange (cfg : MCfg) (s : MState) : MState :=
  if s.committedStatus = s.status then s
  else
    let s := { s with committedStatus := s.status, commits := s.commits ++ [s.status] }
    match renderStep cfg s with
    | .error e => { s with exnLog := s.exnLog ++ [e] }
    | .ok s1 =>
        if cfg.hasStatusChanged then
          { s1 with notifications := s1.notifications ++ [s1.status] }
        else s1

/-- Runs up to `fuel` queued `handleStatusChange` handlers in FIFO order
(each `window.setTimeout` callback is one task); stops early when the queue
is empty. -/
def drainN (cfg : MCfg) : Nat → MState → MState
  | 0, s => s
  | fuel + 1, s =>
      if s.pending = 0 then s
      else drainN cfg fuel (handleStatusChange cfg { s with pending := s.pending - 1 })

/-- One synchronous burst of `setStatus` calls (no handler runs in
between). -/
def applyBurst (bs : List St) (s : MState) : MState :=
  bs.foldl (fun s b => setStatus b s) s

/-- Construction (line 433): the `QtLoader` body ends with
`setStatus("Created")`; the deferred handler then runs at the next tick. -/
def constructedState (cfg : MCfg) : MState :=
  drainN cfg 1 (setStatus St.Created initState)

/-! ## Module callbacks (qtloader.js lines 264-281) -/

/-- The exception object passed to `module.quit`: only its `name` and its
string rendering are inspected. -/
structure JsException where
  name : String
  text : String
deriving DecidableEq, Repr

/-- Lines 264-270 (`module.onAbort`): records the crash synchronously and
sets the status to "Exited". -/
def onAbort (text : String) (s : MState) : MState :=
  setStatus St.Exited { s with crashed := true, exitText := some text }

/-- Lines 271-281 (`module.quit`): an exception named "ExitStatus" is the
ordinary exit-with-code signal and records only `exitCode`; any other
exception records `exitText` and `crashed = true`.  Both end with
`setStatus("Exited")`. -/
def quit (code : Int) (exception : JsException) (s : MState) : MState :=
  if exception.name = "ExitStatus" then
    setStatus St.Exited { s with exitCodeV := some code }
  else
    setStatus St.Exited { s with exitText := some exception.text, crashed := true }

/-! ## Restart decision, packaged (spec section 4.3)

`shouldRestart` transcribes the decision logic the machine runs on a settled
"Exited": the trigger condition of lines 405-406 combined with the counter
logic of `config.restart` (lines 299-305), packaged as the
`shouldRestart(mode, crashed, currentCount, limit)` contract of the spec. -/

structure RestartDecision where
  restart : Bool
  newCount : Nat
  haltReason : Option String
deriving DecidableEq, Repr

def shouldRestart (mode : RestartMode) (crashed : Bool) (count limit : Nat) :
    RestartDecision :=
  if restartTriggered mode crashed then
    let nc := count + 1
    if limit < nc then ⟨false, nc, some haltMessage⟩
    else ⟨true, nc, none⟩
  else ⟨false, count, none⟩

/-! ## Environment injection (qtloader.js lines 283-289)

Lines 284-289 do **not** touch the local `module` bundle object: they append
the injection hook to the pre-run list of the *global* `Module` object
(`Module.preRun = Module.preRun || []; Module.preRun.push(...)`), and the
hook itself writes `ENV[key.toUpperCase()] = value` for each entry of
`config.environment`. -/

inductive PreRunHook
  | injectEnvironment
deriving DecidableEq, Repr

/-- Builds the pre-run lists produced by one `loadEmscriptenModule` run:
first component the local `module` bundle's pre-run list (never assigned by
lines 224-289, hence empty), second the global `Module` object's pre-run
list after lines 284-289 (`g` = its prior value, `none` = `undefined`). -/
def buildModulePreRun (g : Option (List PreRunHook)) :
    List PreRunHook × List PreRunHook :=
  ([], g.getD [] ++ [PreRunHook.injectEnvironment])

/-- `key.toUpperCase()`, written as a structural map over the characters so
that concrete instances evaluate (it agrees with `String.toUpper`). -/
def jsToUpperCase (s : String) : String :=
  String.mk (s.data.map Char.toUpper)

/-- The injection hook's body (lines 286-288): for each `[key, value]` of
`Object.entries(config.environment)` in order, `ENV[key.toUpperCase()] =
value`.  `ENV` is modelled as a lookup function. -/
def applyEnvironment (pairs : List (String × String))
    (env : String → Option String) : String → Option String :=
  pairs.foldl (fun acc kv => Function.update acc (jsToUpperCase kv.1) (some kv.2)) env

/-- The value the injected environment associates with a name `q`: the value
of the last configured pair whose upper-cased key is `q`, if any. -/
def lastUpperLookup (pairs : List (String × String)) (q : String) :
    Option String :=
  (pairs.reverse.find? (fun kv => jsToUpperCase kv.1 == q)).map Prod.snd

/-! ## Helper lemmas about `setStatus` -/

theorem setStatus_status (st : St) (s : MState) :
    (setStatus st s).status = some st := by
  unfold setStatus; split <;> simp_all

theorem setStatus_committedStatus (st : St) (s : MState) :
    (setStatus st s).committedStatus = s.committedStatus := by
  unfold setStatus; split <;> rfl

theorem setStatus_commits (st : St) (s : MState) :
    (setStatus st s).commits = s.commits := by
  unfold setStatus; split <;> rfl

theorem setStatus_renderEvents (st : St) (s : MState) :
    (setStatus st s).renderEvents = s.renderEvents := by
  unfold setStatus; split <;> rfl

theorem setStatus_notifications (st : St) (s : MState) :
    (setStatus st s).notifications = s.notifications := by
  unfold setStatus; split <;> rfl

theorem setStatus_crashed (st : St) (s : MState) :
    (setStatus st s).crashed = s.crashed := by
  unfold setStatus; split <;> rfl

theorem setStatus_exitCodeV (st : St) (s : MState) :
    (setStatus st s).exitCodeV = s.exitCodeV := by
  unfold setStatus; split <;> rfl

theorem setStatus_exitText (st : St) (s : MState) :
    (setStatus st s).exitText = s.exitText := by
  unfold setStatus; split <;> rfl

theorem setStatus_errorMsg (st : St) (s : MState) :
    (setStatus st s).errorMsg = s.errorMsg := by
  unfold setStatus; split <;> rfl

theorem setStatus_loadCalls (st : St) (s : MState) :
    (setStatus st s).loadCalls = s.loadCalls := by
  unfold setStatus; split <;> rfl

theorem setStatus_restartCount (st : St) (s : MState) :
    (setStatus st s).restartCount = s.restartCount := by
  unfold setStatus; split <;> rfl

theorem setStatus_pending_le (st : St) (s : MState) :
    (setStatus st s).pending ≤ s.pending + 1 := by
  unfold setStatus; split <;> simp

theorem setStatus_pending_ge (st : St) (s : MState) :
    s.pending ≤ (setStatus st s).pending := by
  unfold setStatus; split <;> simp

theorem setStatus_pending_eq (st : St) (s : MState)
    (h : (setStatus st s).pending = s.pending) : (setStatus st s) = s := by
  by_cases hc : s.status = some st
  · unfold setStatus; simp [hc]
  · exfalso; unfold setStatus at h; rw [if_neg hc] at h; simp at h

/-- The comparison bug of line 116 makes the WebAssembly probe succeed in
every host environment (helper form, shared by several proofs). -/
theorem webAssemblySupported_true (env : HostEnv) :
    webAssemblySupported env = true := by
  simp [webAssemblySupported]

/-! ## Concrete fixtures used by counterexamples and witnesses -/

/-- A healthy host: WebAssembly present, WebGL context obtainable. -/
def goodHost : HostEnv :=
  { hasWebAssembly := true, hasWebGLRenderingContext := true,
    canvasGetContextWebgl := some true }

/-- External-mode loader with no presentation callbacks except `showCanvas`,
no restarting, with a `statusChanged` observer. -/
def cfgExt : MCfg :=
  { env := goodHost,
    disp := { containerElements := none, showError := false,
              showLoader := false, showCanvas := true, showExit := false },
    restartMode := RestartMode.DoNotRestart,
    restartType := RestartType.RestartModule,
    restartLimit := 10, hasStatusChanged := true }

/-- The settled state right after construction of a `cfgExt` loader: the
deferred "Created" commit has run. -/
def exampleState : MState := constructedState cfgExt

/-- The exception emscripten passes to `module.quit` on an ordinary
`exit(0)`: its `name` field is "ExitStatus". -/
def ordinaryExit : JsException := { name := "ExitStatus", text := "ExitStatus: 0" }

/-- RestartOnCrash loader with `restartLimit = 2`, used around the restart
boundary. -/
def cfgR : MCfg :=
  { env := goodHost,
    disp := { containerElements := some 1, showError := true,
              showLoader := true, showCanvas := true, showExit := true },
    restartMode := RestartMode.RestartOnCrash,
    restartType := RestartType.RestartModule,
    restartLimit := 2, hasStatusChanged := true }

/-- A crashed, settled "Exited" state one restart below the limit. -/
def stateBelowLimit : MState :=
  { initState with status := some St.Exited, committedStatus := some St.Exited,
                   crashed := true, restartCount := 1 }

/-- A crashed, settled "Exited" state whose count already equals the limit. -/
def stateAtLimit : MState :=
  { initState with status := some St.Exited, committedStatus := some St.Exited,
                   crashed := true, restartCount := 2 }

/-! ## C4 — committed-state observation -/

/-- C4 counterexample: the claim says that between a status-setter call and
its deferred commit the public surface still yields the previously committed
values.  On the concrete constructed loader (committed status "Created"),
one `setStatus("Loading")` call immediately flips the public `status`
observer to "Loading" while the commit (`committedStatus`) is still
"Created" and the deferred handler is still queued — the public surface
exposes the uncommitted in-flight value. -/
theorem qtloader_C4_counterexample :
    (setStatus St.Loading exampleState).committedStatus = some St.Created ∧
    (setStatus St.Loading exampleState).status = some St.Loading ∧
    (setStatus St.Loading exampleState).status ≠
      (setStatus St.Loading exampleState).committedStatus ∧
    (setStatus St.Loading exampleState).pending = 1 := by
  decide

/-- C4 amended: the public `status` observer reflects the *logical* status,
updated synchronously by the setter; the setter leaves `committedStatus`,
the other public exit fields, and all commit side effects (dispatcher
renders, notifications, commits) untouched until the deferred handler
runs. -/
theorem qtloader_C4_amended (st : St) (s : MState) :
    (setStatus st s).status = some st ∧
    (setStatus st s).committedStatus = s.committedStatus ∧
    (setStatus st s).crashed = s.crashed ∧
    (setStatus st s).exitCodeV = s.exitCodeV ∧
    (setStatus st s).exitText = s.exitText ∧
    (setStatus st s).renderEvents = s.renderEvents ∧
    (setStatus st s).notifications = s.notifications ∧
    (setStatus st s).commits = s.commits :=
  ⟨setStatus_status st s, setStatus_committedStatus st s, setStatus_crashed st s,
   setStatus_exitCodeV st s, setStatus_exitText st s, setStatus_renderEvents st s,
   setStatus_notifications st s, setStatus_commits st s⟩

/-! ## C5 — clean-exit postcondition -/

/-- C5: in a load cycle whose exit fields are still in their post-load reset
state (`crashed = false`, `exitText` unset — established by lines 309-311),
invoking the termination callback `module.quit` with code 0 and an
ordinary-exit exception (name "ExitStatus") yields `crashed = false`,
`exitCode = 0`, logical status "Exited", and leaves `exitText` unset. -/
theorem qtloader_C5 (s : MState) (exc : JsException)
    (hname : exc.name = "ExitStatus")
    (hcrash : s.crashed = false) (htext : s.exitText = none) :
    (quit 0 exc s).crashed = false ∧
    (quit 0 exc s).exitCodeV = some 0 ∧
    (quit 0 exc s).status = some St.Exited ∧
    (quit 0 exc s).exitText = none := by
  unfold quit
  rw [if_pos hname]
  refine ⟨?_, ?_, setStatus_status _ _, ?_⟩
  · rw [setStatus_crashed]; exact hcrash
  · rw [setStatus_exitCodeV]
  · rw [setStatus_exitText]; exact htext

theorem qtloader_C5_witness :
    (quit 0 ordinaryExit initState).crashed = false ∧
    (quit 0 ordinaryExit initState).exitCodeV = some 0 ∧
    (quit 0 ordinaryExit initState).status = some St.Exited ∧
    (quit 0 ordinaryExit initState).exitText = none :=
  qtloader_C5 initState ordinaryExit rfl rfl rfl

/-! ## C6 — capability probe -/

/-- C6 (code bug): line 116 compares the *string* `typeof WebAssembly`
against the *value* `undefined` with `!==`, which is true for every string.
Hence the execution-format probe returns `true` in every host — including a
host with no WebAssembly object at all — contradicting both the claim and
the probe's own documentation ("Reports if WebAssembly ... supported").
For contrast, the graphics probe does return `false` when its query
mechanism throws, and `canLoadQt` is the conjunction of the two probes, so
a WebAssembly-free host with working WebGL is reported as able to run the
application. -/
theorem qtloader_C6_wasm_probe_bug :
    webAssemblySupported
      { hasWebAssembly := false, hasWebGLRenderingContext := false,
        canvasGetContextWebgl := none } = true ∧
    (∀ env : HostEnv, webAssemblySupported env = true) ∧
    webGLSupported
      { hasWebAssembly := true, hasWebGLRenderingContext := true,
        canvasGetContextWebgl := none } = false ∧
    canLoadQt
      { hasWebAssembly := false, hasWebGLRenderingContext := true,
        canvasGetContextWebgl := some true } = true :=
  ⟨by decide, webAssemblySupported_true, by decide, by decide⟩

/-! ## C2 — restart-limit boundary -/

/-- C2 counterexample: the claim says a restart decision entered with the
current count *equal to the limit* still restarts.  With the default limit
10 and current count 10, `config.restart` first increments the count to 11,
which exceeds the limit, so it halts with the permanent error message — it
does not restart. -/
theorem qtloader_C2_counterexample :
    shouldRestart RestartMode.RestartOnCrash true 10 10
      = { restart := false, newCount := 11, haltReason := some haltMessage } := rfl

/-- C2 amended: because `config.restart` increments before comparing, a
decision entered with current count *strictly below* the limit restarts, and
one entered with count equal to the limit — and a fortiori limit + 1 — halts
with the permanent "crashed too many times" error.  The same boundary holds
for the machine-level `config.restart` transformer: below the limit it
starts a fresh load cycle (one more `createModule` call, status "Loading");
at or above it, it sets the halt message and moves to a permanent "Error"
without loading. -/
theorem qtloader_C2_amended (cfg : MCfg) (s : MState) (count limit : Nat) :
    (count < limit →
      (shouldRestart RestartMode.RestartOnCrash true count limit).restart = true ∧
      (shouldRestart RestartMode.RestartOnCrash true count limit).haltReason = none) ∧
    (limit ≤ count →
      (shouldRestart RestartMode.RestartOnCrash true count limit).restart = false ∧
      (shouldRestart RestartMode.RestartOnCrash true count limit).haltReason = some haltMessage) ∧
    (cfg.restartType = RestartType.RestartModule → webGLSupported cfg.env = true →
      ((s.restartCount < cfg.restartLimit →
          (restart cfg s).loadCalls = s.loadCalls + 1 ∧
          (restart cfg s).status = some St.Loading ∧
          (restart cfg s).errorMsg = s.errorMsg) ∧
       (cfg.restartLimit ≤ s.restartCount →
          (restart cfg s).status = some St.Error ∧
          (restart cfg s).errorMsg = some haltMessage ∧
          (restart cfg s).loadCalls = s.loadCalls))) := by
  refine ⟨?_, ?_, ?_⟩
  · intro h
    have hlt : ¬ (limit < count + 1) := by omega
    simp [shouldRestart, restartTriggered, hlt]
  · intro h
    have hlt : limit < count + 1 := by omega
    simp [shouldRestart, restartTriggered, hlt]
  · intro hRT hGL
    constructor
    · intro hcnt
      have hlt : ¬ (cfg.restartLimit < s.restartCount + 1) := by omega
      simp [restart, loadEmscriptenModule, hRT, hlt, hGL, webAssemblySupported_true,
            setStatus_loadCalls, setStatus_status, setStatus_errorMsg]
    · intro hcnt
      have hlt : cfg.restartLimit < s.restartCount + 1 := by omega
      simp [restart, hRT, hlt, setStatus_loadCalls, setStatus_status, setStatus_errorMsg]

theorem qtloader_C2_witness :
    (shouldRestart RestartMode.RestartOnCrash true 1 2).restart = true ∧
    (shouldRestart RestartMode.RestartOnCrash true 2 2).restart = false ∧
    (shouldRestart RestartMode.RestartOnCrash true 2 2).haltReason = some haltMessage ∧
    (restart cfgR stateBelowLimit).loadCalls = stateBelowLimit.loadCalls + 1 ∧
    (restart cfgR stateAtLimit).status = some St.Error :=
  ⟨((qtloader_C2_amended cfgR stateBelowLimit 1 2).1 (by decide)).1,
   ((qtloader_C2_amended cfgR stateAtLimit 2 2).2.1 (by decide)).1,
   ((qtloader_C2_amended cfgR stateAtLimit 2 2).2.1 (by decide)).2,
   (((qtloader_C2_amended cfgR stateBelowLimit 1 2).2.2 rfl rfl).1 (by decide)).1,
   (((qtloader_C2_amended cfgR stateAtLimit 2 2).2.2 rfl rfl).2 (by decide)).1⟩

/-! ## C3 — restart trigger rule -/

theorem restartTriggered_iff (m : RestartMode) (c : Bool) :
    restartTriggered m c = true ↔
      (m = RestartMode.RestartOnExit ∨ (m = RestartMode.RestartOnCrash ∧ c = true)) := by
  cases m <;> cases c <;> simp [restartTriggered]

theorem loadEmscriptenModule_restartCount (cfg : MCfg) (s : MState) :
    (loadEmscriptenModule cfg s).restartCount = s.restartCount := by
  unfold loadEmscriptenModule
  split
  · rw [setStatus_restartCount]
  · split
    · rw [setStatus_restartCount]
    · simp [setStatus_restartCount]

theorem loadEmscriptenModule_reloaded (cfg : MCfg) (s : MState) :
    (loadEmscriptenModule cfg s).reloaded = s.reloaded := by
  unfold loadEmscriptenModule
  split
  · unfold setStatus; split <;> rfl
  · split
    · unfold setStatus; split <;> rfl
    · simp; unfold setStatus; split <;> rfl

theorem restart_restartCount (cfg : MCfg) (s : MState) :
    (restart cfg s).restartCount = s.restartCount + 1 := by
  by_cases hRT : cfg.restartType = RestartType.ReloadPage <;>
    by_cases hL : cfg.restartLimit < s.restartCount + 1 <;>
      simp [restart, hRT, hL, setStatus_restartCount, loadEmscriptenModule_restartCount]

/-- C3: on a settled "Exited" commit, the machine takes the restart path
(observable as an increment of `restartCount`, which only `config.restart`
performs) exactly when the configured mode is RestartOnExit, or the mode is
RestartOnCrash and the instance crashed; with RestartOnCrash and
`crashed = false` the handler never restarts — it neither increments the
count, nor invokes `createModule`, nor reloads the page — for every count
and limit in the configuration. -/
theorem qtloader_C3 (cfg : MCfg) (s : MState)
    (hst : s.status = some St.Exited)
    (hcm : s.committedStatus ≠ some St.Exited) :
    (((handleStatusChange cfg s).restartCount = s.restartCount + 1) ↔
      (cfg.restartMode = RestartMode.RestartOnExit ∨
        (cfg.restartMode = RestartMode.RestartOnCrash ∧ s.crashed = true))) ∧
    (cfg.restartMode = RestartMode.RestartOnCrash → s.crashed = false →
      (handleStatusChange cfg s).restartCount = s.restartCount ∧
      (handleStatusChange cfg s).loadCalls = s.loadCalls ∧
      (handleStatusChange cfg s).reloaded = s.reloaded) := by
  have hguard : ¬ (s.committedStatus = s.status) := by rw [hst]; exact hcm
  by_cases htr : restartTriggered cfg.restartMode s.crashed = true
  · refine ⟨⟨fun _ => (restartTriggered_iff _ _).mp htr, fun _ => ?_⟩, fun h1 h2 => ?_⟩
    · by_cases hn : cfg.hasStatusChanged = true <;>
        simp [handleStatusChange, renderStep, hguard, hst, hcm, htr, hn, restart_restartCount]
    · rw [h1, h2] at htr
      simp [restartTriggered] at htr
  · have hrule : ¬ (cfg.restartMode = RestartMode.RestartOnExit ∨
        (cfg.restartMode = RestartMode.RestartOnCrash ∧ s.crashed = true)) := by
      intro hr
      exact htr ((restartTriggered_iff _ _).mpr hr)
    rcases hres : setExitContent cfg.disp (some St.Exited) s.crashed with e | evs <;>
      by_cases hn : cfg.hasStatusChanged = true <;>
        simp [handleStatusChange, renderStep, hguard, hst, hcm, htr, hres, hn, hrule,
              Except.map]

/-- Concrete uses of the two directions of C3: a RestartOnExit loader whose
module exited cleanly does restart; a RestartOnCrash loader whose module
exited cleanly does not. -/
theorem qtloader_C3_witness :
    (handleStatusChange
        { cfgExt with restartMode := RestartMode.RestartOnExit }
        { initState with status := some St.Exited,
                         committedStatus := some St.Running }).restartCount
      = 1 ∧
    (handleStatusChange
        { cfgExt with restartMode := RestartMode.RestartOnCrash }
        { initState with status := some St.Exited,
                         committedStatus := some St.Running }).loadCalls
      = 0 :=
  ⟨(qtloader_C3 { cfgExt with restartMode := RestartMode.RestartOnExit }
      { initState with status := some St.Exited, committedStatus := some St.Running }
      rfl (by decide)).1.mpr (Or.inl rfl),
   ((qtloader_C3 { cfgExt with restartMode := RestartMode.RestartOnCrash }
      { initState with status := some St.Exited, committedStatus := some St.Running }
      rfl (by decide)).2 rfl rfl).2.1⟩

/-! ## C7 — external-mode totality -/

/-- External-mode dispatcher configuration with no presentation callbacks at
all. -/
def extNoCallbacks : DispCfg :=
  { containerElements := none, showError := false, showLoader := false,
    showCanvas := false, showExit := false }

/-- C7 counterexample: the claim says that in external mode rendering *any*
status with no matching callback is a no-op that does not raise.  For the
"Running" status, `setCanvasContent` evaluates `config.showCanvas()`
unconditionally (line 347), so with no canvas callback supplied it throws a
`TypeError` instead of being a no-op. -/
theorem qtloader_C7_counterexample :
    setCanvasContent extNoCallbacks false = Except.error JsErr.typeError := rfl

/-- C7 amended: in external mode, absence of the matching callback is a
silent no-op (no DOM events, no error) for the "Loading", "Error" and
"Exited" renderings; for "Running", the canvas callback is invoked
unconditionally, so its absence raises a `TypeError` (the embedding page
must supply `showCanvas` in external mode). -/
theorem qtloader_C7_amended (cfg : DispCfg) (crashed canvasSet : Bool)
    (hext : cfg.containerElements = none) :
    (cfg.showError = false → setErrorContent cfg = Except.ok []) ∧
    (cfg.showLoader = false → setLoaderContent cfg = Except.ok []) ∧
    (cfg.showExit = false →
      setExitContent cfg (some St.Exited) crashed = Except.ok []) ∧
    (cfg.showCanvas = false →
      setCanvasContent cfg canvasSet = Except.error JsErr.typeError) := by
  refine ⟨fun h => ?_, fun h => ?_, fun h => ?_, fun h => ?_⟩
  · simp [setErrorContent, hext, h]
  · simp [setLoaderContent, hext, h]
  · simp [setExitContent, hext, h]
  · simp [setCanvasContent, hext, h]

theorem qtloader_C7_witness :
    setErrorContent extNoCallbacks = Except.ok [] ∧
    setLoaderContent extNoCallbacks = Except.ok [] ∧
    setExitContent extNoCallbacks (some St.Exited) true = Except.ok [] ∧
    setCanvasContent extNoCallbacks true = Except.error JsErr.typeError :=
  ⟨(qtloader_C7_amended extNoCallbacks true true rfl).1 rfl,
   (qtloader_C7_amended extNoCallbacks true true rfl).2.1 rfl,
   (qtloader_C7_amended extNoCallbacks true true rfl).2.2.1 rfl,
   (qtloader_C7_amended extNoCallbacks true true rfl).2.2.2 rfl⟩

/-! ## C8 — exit rendering requires a crash -/

/-- External-mode dispatcher configuration whose only callback is
`showExit`. -/
def extOnlyExit : DispCfg :=
  { containerElements := none, showError := false, showLoader := false,
    showCanvas := false, showExit := true }

/-- C8 counterexample: the claim says that in *both* modes the exit
presentation callback is invoked only when `crashed = true`.  In external
mode the `if (!publicAPI.crashed) return;` guard (line 376) sits *after* the
external-mode branch (lines 368-372), so a supplied `showExit` is invoked
for a committed "Exited" even on a clean exit (`crashed = false`). -/
theorem qtloader_C8_counterexample :
    setExitContent extOnlyExit (some St.Exited) false
      = Except.ok [Ev.callShowExit false] := rfl

/-- C8 amended: the crash requirement holds in managed mode only — with
containers, a committed "Exited" with `crashed = false` renders nothing.  In
external mode the supplied exit callback is invoked for any committed
"Exited" regardless of `crashed` (it merely receives the flag); and for any
non-"Exited" public status the exit renderer does nothing in either mode. -/
theorem qtloader_C8_amended (cfg : DispCfg) (n : Nat) (crashed : Bool)
    (status : Option St) :
    (cfg.containerElements = some n →
      setExitContent cfg (some St.Exited) false = Except.ok []) ∧
    (cfg.containerElements = none → cfg.showExit = true →
      setExitContent cfg (some St.Exited) crashed
        = Except.ok [Ev.callShowExit crashed]) ∧
    (status ≠ some St.Exited →
      setExitContent cfg status crashed = Except.ok []) := by
  refine ⟨fun h => ?_, fun h hse => ?_, fun h => ?_⟩
  · simp [setExitContent, h]
  · simp [setExitContent, h, hse]
  · simp [setExitContent, h]

theorem qtloader_C8_witness :
    setExitContent
        { containerElements := some 2, showError := true, showLoader := true,
          showCanvas := true, showExit := true }
        (some St.Exited) false = Except.ok [] ∧
    setExitContent extOnlyExit (some St.Exited) true
      = Except.ok [Ev.callShowExit true] ∧
    setExitContent extOnlyExit (some St.Running) true = Except.ok [] :=
  ⟨(qtloader_C8_amended
      { containerElements := some 2, showError := true, showLoader := true,
        showCanvas := true, showExit := true } 2 false (some St.Exited)).1 rfl,
   (qtloader_C8_amended extOnlyExit 0 true (some St.Exited)).2.1 rfl rfl,
   (qtloader_C8_amended extOnlyExit 0 true (some St.Running)).2.2 (by decide)⟩

/-! ## C9 — environment injection -/

/-- C9 counterexample: the claim says every key/value pair of the configured
environment mapping is applied *as given* (string key to string value).  The
hook body executes `ENV[key.toUpperCase()] = value` (line 287), so
configuring `path = /usr/bin` defines `PATH`, not `path`. -/
theorem qtloader_C9_counterexample :
    applyEnvironment [("path", "/usr/bin")] (fun _ => none) "path" = none ∧
    applyEnvironment [("path", "/usr/bin")] (fun _ => none) "PATH"
      = some "/usr/bin" := by
  constructor <;> decide

theorem applyEnvironment_lookup (pairs : List (String × String))
    (env : String → Option String) (q : String) :
    applyEnvironment pairs env q = (lastUpperLookup pairs q).or (env q) := by
  induction pairs generalizing env with
  | nil => simp [applyEnvironment, lastUpperLookup]
  | cons kv rest ih =>
    show applyEnvironment rest (Function.update env (jsToUpperCase kv.1) (some kv.2)) q = _
    rw [ih]
    unfold lastUpperLookup
    simp only [List.reverse_cons, List.find?_append]
    cases hfind : rest.reverse.find? (fun p => jsToUpperCase p.1 == q) with
    | some r => simp [lastUpperLookup, hfind, Option.or]
    | none =>
      by_cases hq : q = jsToUpperCase kv.1
      · simp [lastUpperLookup, hfind, Option.or, List.find?, hq,
              Function.update_apply]
      · have hq2 : (jsToUpperCase kv.1 == q) = false := by
          simp [BEq.beq]
          intro hc
          exact hq hc.symm
        simp [lastUpperLookup, hfind, Option.or, List.find?, hq, hq2,
              Function.update_apply]

/-- C9 amended: the environment-injection step is appended to the pre-run
hook list of the *global* `Module` object (lines 284-289) — the local
callback bundle object built by `loadEmscriptenModule` never receives a
pre-run entry — and when the hook runs, each configured pair is applied
with its key upper-cased: looking up a name afterwards yields the value of
the last configured pair whose upper-cased key matches it, and otherwise the
prior environment value. -/
theorem qtloader_C9_amended (g : Option (List PreRunHook))
    (pairs : List (String × String)) (env : String → Option String)
    (q : String) :
    (buildModulePreRun g).1 = [] ∧
    PreRunHook.injectEnvironment ∈ (buildModulePreRun g).2 ∧
    applyEnvironment pairs env q = (lastUpperLookup pairs q).or (env q) :=
  ⟨rfl, by simp [buildModulePreRun], applyEnvironment_lookup pairs env q⟩

/-! ## C1 — debounced commit -/

/-- Under DoNotRestart, one `handleStatusChange` run never touches the
public status or the timeout queue, always leaves `committedStatus` equal to
the public status, and performs exactly one dispatcher invocation when the
status was uncommitted and none otherwise. -/
theorem handleStatusChange_DNR (cfg : MCfg) (s : MState)
    (hm : cfg.restartMode = RestartMode.DoNotRestart) :
    (handleStatusChange cfg s).status = s.status ∧
    (handleStatusChange cfg s).pending = s.pending ∧
    (handleStatusChange cfg s).committedStatus = s.status ∧
    (handleStatusChange cfg s).commits
      = s.commits ++ (if s.committedStatus = s.status then [] else [s.status]) := by
  by_cases hc : s.committedStatus = s.status
  · simp [handleStatusChange, hc]
  · have htr : restartTriggered cfg.restartMode s.crashed = false := by
      rw [hm]; rfl
    cases hst : s.status with
    | none =>
      rw [hst] at hc
      by_cases hn : cfg.hasStatusChanged = true <;>
        simp [handleStatusChange, renderStep, hst, hc, hn]
    | some st =>
      rw [hst] at hc
      cases st with
      | Created =>
        by_cases hn : cfg.hasStatusChanged = true <;>
          simp [handleStatusChange, renderStep, hst, hc, hn]
      | Error =>
        rcases hE : setErrorContent cfg.disp with e | evs <;>
          by_cases hn : cfg.hasStatusChanged = true <;>
            simp [handleStatusChange, renderStep, hst, hc, hE, hn, Except.map]
      | Loading =>
        rcases hE : setLoaderContent cfg.disp with e | evs <;>
          by_cases hn : cfg.hasStatusChanged = true <;>
            simp [handleStatusChange, renderStep, hst, hc, hE, hn, Except.map]
      | Running =>
        rcases hE : setCanvasContent cfg.disp s.moduleCanvasSet with e | evs <;>
          by_cases hn : cfg.hasStatusChanged = true <;>
            simp [handleStatusChange, renderStep, hst, hc, hE, hn, Except.map]
      | Exited =>
        rcases hE : setExitContent cfg.disp (some St.Exited) s.crashed with e | evs <;>
          by_cases hn : cfg.hasStatusChanged = true <;>
            simp [handleStatusChange, renderStep, hst, hc, htr, hE, hn, Except.map]

/-- Draining the queue under DoNotRestart: if the queue is empty or the
status is already committed nothing further is dispatched; otherwise exactly
one dispatcher invocation happens, carrying the current public status. -/
theorem drainN_commits_DNR (cfg : MCfg)
    (hm : cfg.restartMode = RestartMode.DoNotRestart) :
    ∀ (fuel : Nat) (s : MState), s.pending ≤ fuel →
      (drainN cfg fuel s).commits
        = s.commits ++
            (if s.pending = 0 ∨ s.committedStatus = s.status then [] else [s.status]) := by
  intro fuel
  induction fuel with
  | zero =>
    intro s hp
    have h0 : s.pending = 0 := Nat.le_zero.mp hp
    simp [drainN, h0]
  | succ fuel ih =>
    intro s hp
    by_cases hz : s.pending = 0
    · simp [drainN, hz]
    · have hstep := handleStatusChange_DNR cfg { s with pending := s.pending - 1 } hm
      obtain ⟨h1, h2, h3, h4⟩ := hstep
      set t := handleStatusChange cfg { s with pending := s.pending - 1 } with ht
      have h1s : t.status = s.status := by simpa using h1
      have h2s : t.pending = s.pending - 1 := by simpa using h2
      have h3s : t.committedStatus = s.status := by simpa using h3
      have h4s : t.commits
          = s.commits ++ (if s.committedStatus = s.status then [] else [s.status]) := by
        simpa using h4
      have hp' : t.pending ≤ fuel := by omega
      have hone : drainN cfg (fuel + 1) s = drainN cfg fuel t := by
        rw [drainN, if_neg hz]
      rw [hone, ih t hp', h4s, if_pos (Or.inr (by rw [h3s, h1s])), List.append_nil]
      by_cases hcs : s.committedStatus = s.status <;> simp [hz, hcs]

theorem applyBurst_committedStatus (bs : List St) (s : MState) :
    (applyBurst bs s).committedStatus = s.committedStatus := by
  induction bs generalizing s with
  | nil => rfl
  | cons b rest ih =>
    show (applyBurst rest (setStatus b s)).committedStatus = s.committedStatus
    rw [ih, setStatus_committedStatus]

theorem applyBurst_commits (bs : List St) (s : MState) :
    (applyBurst bs s).commits = s.commits := by
  induction bs generalizing s with
  | nil => rfl
  | cons b rest ih =>
    show (applyBurst rest (setStatus b s)).commits = s.commits
    rw [ih, setStatus_commits]

theorem applyBurst_status (bs : List St) (last : St) (s : MState)
    (hlast : bs.getLast? = some last) :
    (applyBurst bs s).status = some last := by
  induction bs generalizing s with
  | nil => simp at hlast
  | cons b rest ih =>
    cases rest with
    | nil =>
      simp at hlast
      show (setStatus b s).status = some last
      rw [setStatus_status, hlast]
    | cons c rest2 =>
      rw [List.getLast?_cons_cons] at hlast
      exact ih (setStatus b s) hlast

theorem applyBurst_pending_le (bs : List St) (s : MState) :
    (applyBurst bs s).pending ≤ s.pending + bs.length := by
  induction bs generalizing s with
  | nil => simp [applyBurst]
  | cons b rest ih =>
    have h1 := setStatus_pending_le b s
    have h2 := ih (setStatus b s)
    show (applyBurst rest (setStatus b s)).pending ≤ s.pending + (rest.length + 1)
    omega

theorem applyBurst_pending_ge (bs : List St) (s : MState) :
    s.pending ≤ (applyBurst bs s).pending := by
  induction bs generalizing s with
  | nil => simp [applyBurst]
  | cons b rest ih =>
    have h1 := setStatus_pending_ge b s
    have h2 := ih (setStatus b s)
    show s.pending ≤ (applyBurst rest (setStatus b s)).pending
    omega

/-- A burst that queued no handler changed nothing: every `setStatus` call
in it was an early return. -/
theorem applyBurst_pending_fixed (bs : List St) (s : MState)
    (h0 : (applyBurst bs s).pending = s.pending) :
    (applyBurst bs s).status = s.status := by
  induction bs generalizing s with
  | nil => rfl
  | cons b rest ih =>
    have hb : applyBurst (b :: rest) s = applyBurst rest (setStatus b s) := rfl
    rw [hb] at h0 ⊢
    have hge := applyBurst_pending_ge rest (setStatus b s)
    have hss := setStatus_pending_ge b s
    have heq : (setStatus b s).pending = s.pending := by omega
    rw [setStatus_pending_eq b s heq] at h0 ⊢
    exact ih s h0

/-- C1: for a settled loader (nothing queued, status committed) with a
DoNotRestart configuration, any nonempty synchronous burst of status-setter
calls, once its deferred handlers all run, produces **at most one**
dispatcher invocation, and that invocation carries the **last** status of
the burst (no invocation at all when the last status equals the already
committed one — in particular two successive calls with one same value
produce exactly one invocation, not two). -/
theorem qtloader_C1 (cfg : MCfg) (s0 : MState) (bs : List St) (last : St)
    (hm : cfg.restartMode = RestartMode.DoNotRestart)
    (hlast : bs.getLast? = some last)
    (hp : s0.pending = 0)
    (hs : s0.committedStatus = s0.status)
    (fuel : Nat) (hf : bs.length ≤ fuel) :
    (drainN cfg fuel (applyBurst bs s0)).commits
      = s0.commits ++ (if s0.status = some last then [] else [some last]) := by
  have hst1 : (applyBurst bs s0).status = some last := applyBurst_status bs last s0 hlast
  have hcm1 : (applyBurst bs s0).committedStatus = s0.committedStatus :=
    applyBurst_committedStatus bs s0
  have hcom1 : (applyBurst bs s0).commits = s0.commits := applyBurst_commits bs s0
  have hple := applyBurst_pending_le bs s0
  have hpend : (applyBurst bs s0).pending ≤ fuel := by omega
  rw [drainN_commits_DNR cfg hm fuel (applyBurst bs s0) hpend, hcom1, hcm1, hst1, hs]
  by_cases hz : (applyBurst bs s0).pending = 0
  · have hfix : (applyBurst bs s0).status = s0.status :=
      applyBurst_pending_fixed bs s0 (by omega)
    rw [hst1] at hfix
    simp [hz, hfix.symm]
  · simp [hz]

/-- Concrete instance of C1: on a settled just-constructed loader (committed
status "Created"), the burst `setStatus("Loading"); setStatus("Loading")` —
two successive setter calls with the same value — yields exactly one
dispatcher invocation, with status "Loading". -/
theorem qtloader_C1_witness :
    (drainN cfgExt 2 (applyBurst [St.Loading, St.Loading] exampleState)).commits
      = exampleState.commits ++ [some St.Loading] := by
  have h := qtloader_C1 cfgExt exampleState [St.Loading, St.Loading] St.Loading
    rfl rfl (by decide) (by decide) 2 (by decide)
  rw [if_neg (by decide : ¬ exampleState.status = some St.Loading)] at h
  exact h

/-! ## C10 — construction commits "Created" -/

/-- C10: constructing a loader ends with `setStatus("Created")` (line 433),
which queues one deferred commit; once that handler runs, the status
"Created" is committed and the `statusChanged` observer has been invoked
exactly once, with "Created" — while the dispatcher rendered nothing
("Created" matches none of its four presentation branches) and no load was
started. -/
theorem qtloader_C10 (cfg : MCfg) (hn : cfg.hasStatusChanged = true) :
    (constructedState cfg).status = some St.Created ∧
    (constructedState cfg).committedStatus = some St.Created ∧
    (constructedState cfg).notifications = [some St.Created] ∧
    (constructedState cfg).renderEvents = [] ∧
    (constructedState cfg).commits = [some St.Created] ∧
    (constructedState cfg).pending = 0 ∧
    (constructedState cfg).loadCalls = 0 := by
  simp [constructedState, drainN, handleStatusChange, renderStep, setStatus,
        initState, hn]

theorem qtloader_C10_witness :
    (constructedState cfgExt).notifications = [some St.Created] ∧
    (constructedState cfgExt).renderEvents = [] ∧
    (constructedState cfgExt).loadCalls = 0 :=
  ⟨(qtloader_C10 cfgExt rfl).2.2.1, (qtloader_C10 cfgExt rfl).2.2.2.1,
   (qtloader_C10 cfgExt rfl).2.2.2.2.2.2⟩
